import Mathlib

/-!
Shallow embedding of `src/tmarks/src/lib/api-client.ts`: a generic HTTP client
with bearer-token injection, a single-flight token-refresh coordinator
(`isRefreshing` flag plus `refreshSubscribers` waiter list), a retry-once-on-401
protocol, and response-body classification.  All definitions below are
translated from the TypeScript source; theorems settle the frozen claims
about that source.
-/

namespace ApiClient

/-! ### JavaScript value model

JSON-representable JavaScript values.  `Option Json` stands for a possibly
`undefined` value (`none` = `undefined`).  Numbers are modelled as integers:
the file never performs arithmetic on numbers, only truthiness tests and
pass-through. -/

inductive Json where
  | null
  | bool (b : Bool)
  | num (n : Int)
  | str (s : String)
  | arr (elems : List Json)
  | obj (fields : List (String × Json))

/-- JavaScript truthiness of a JSON value (`null`, `false`, `0`, `""` are
falsy; arrays and objects are always truthy). -/
def truthyJson : Json → Bool
  | .null => false
  | .bool b => b
  | .num n => n != 0
  | .str s => s != ""
  | .arr _ => true
  | .obj _ => true

/-- Truthiness of a possibly-`undefined` value. -/
def truthyOpt : Option Json → Bool
  | none => false
  | some j => truthyJson j

/-- Property access `j.k` in JavaScript on a value known to be non-`null`:
`none` (`undefined`) when `j` is not an object or lacks the key.  Access on
`null` throws a TypeError and is modelled separately by `accessField`; this
total version is used only where the scrutinee is truthy (hence never
`null`).  Objects produced by `JSON.parse` have unique keys, so first-match
lookup is faithful. -/
def getField : Json → String → Option Json
  | .obj fields, k => (fields.find? (fun p => p.1 == k)).map (fun p => p.2)
  | _, _ => none

/-- Property access `j.k` in JavaScript on a `JSON.parse` result: throws a
TypeError when the value is `null`, yields `undefined` on other non-objects,
looks the key up on objects. -/
def accessField (j : Json) (k : String) : Except String (Option Json) :=
  match j with
  | .null => .error ("Cannot read properties of null (reading '" ++ k ++ "')")
  | .obj fields => .ok ((fields.find? (fun p => p.1 == k)).map (fun p => p.2))
  | _ => .ok none

/-- Escape of one character inside a JSON string literal, as
`JSON.stringify` produces it (control characters beyond the common three are
left unescaped in this model; the claims never inspect them). -/
def escapeChar (c : Char) : String :=
  if c = '"' then "\\\""
  else if c = '\\' then "\\\\"
  else if c = '\n' then "\\n"
  else if c = '\t' then "\\t"
  else if c = '\r' then "\\r"
  else String.singleton c

/-- Escape of a whole string for a JSON string literal. -/
def escapeString (s : String) : String :=
  String.join (s.toList.map escapeChar)

mutual

/-- `JSON.stringify` on a JSON value. -/
def stringify : Json → String
  | .null => "null"
  | .bool true => "true"
  | .bool false => "false"
  | .num n => toString n
  | .str s => "\"" ++ escapeString s ++ "\""
  | .arr elems => "[" ++ stringifyElems elems ++ "]"
  | .obj fields => "\x7b" ++ stringifyFields fields ++ "\x7d"

/-- `JSON.stringify` of array elements, comma separated. -/
def stringifyElems : List Json → String
  | [] => ""
  | [j] => stringify j
  | j :: rest => stringify j ++ "," ++ stringifyElems rest

/-- `JSON.stringify` of object fields, comma separated. -/
def stringifyFields : List (String × Json) → String
  | [] => ""
  | [(k, v)] => "\"" ++ escapeString k ++ "\":" ++ stringify v
  | (k, v) :: rest =>
      "\"" ++ escapeString k ++ "\":" ++ stringify v ++ "," ++ stringifyFields rest

end

/-! ### Header merging (`makeRequest`, lines 51–65)

The source builds `new Headers({'Content-Type': 'application/json',
...options.headers})` and then injects `Authorization: Bearer <token>` only
when `authToken` is truthy and `headers.get('Authorization')` is falsy.
We model a JavaScript record (object literal) as an ordered association list
with object-spread update semantics, and a WHATWG `Headers` object as an
ordered list of lowercase names where `append` combines duplicates with
`", "` and `get`/`set` are case-insensitive. -/

/-- JavaScript object-literal assignment `obj[k] = v`: replaces the value in
place when the exact key exists, otherwise appends. -/
def recSet (m : List (String × String)) (k v : String) : List (String × String) :=
  if (m.find? (fun p => p.1 == k)).isSome then
    m.map (fun p => if p.1 == k then (k, v) else p)
  else m ++ [(k, v)]

/-- Object spread `\x7b...base, ...caller\x7d`: assign each caller pair into the
base record in order. -/
def spreadRecord (base caller : List (String × String)) : List (String × String) :=
  caller.foldl (fun acc p => recSet acc p.1 p.2) base

/-- ASCII lowercasing of one character (the header names in play are
ASCII). -/
def lowerChar (c : Char) : Char :=
  if 'A' ≤ c ∧ c ≤ 'Z' then Char.ofNat (c.toNat + 32) else c

/-- Header-name normalization: `Headers` treats names case-insensitively by
lowercasing them. -/
def lowerName (s : String) : String := ⟨s.data.map lowerChar⟩

/-- `Headers.append`: names are lowercased; an existing name has the new
value combined onto it with `", "`. -/
def headersAppend (h : List (String × String)) (k v : String) : List (String × String) :=
  let n := lowerName k
  if (h.find? (fun p => p.1 == n)).isSome then
    h.map (fun p => if p.1 == n then (n, p.2 ++ ", " ++ v) else p)
  else h ++ [(n, v)]

/-- `new Headers(record)`: append every pair of the record in order. -/
def headersOfRecord (record : List (String × String)) : List (String × String) :=
  record.foldl (fun h p => headersAppend h p.1 p.2) []

/-- `Headers.get`: case-insensitive lookup, `none` when absent. -/
def headersGet (h : List (String × String)) (k : String) : Option String :=
  (h.find? (fun p => p.1 == lowerName k)).map (fun p => p.2)

/-- `Headers.set`: case-insensitive replace-or-add. -/
def headersSet (h : List (String × String)) (k v : String) : List (String × String) :=
  let n := lowerName k
  if (h.find? (fun p => p.1 == n)).isSome then
    h.map (fun p => if p.1 == n then (n, v) else p)
  else h ++ [(n, v)]

/-- Truthiness of the `string | null` result of `Headers.get`. -/
def truthyStrOpt : Option String → Bool
  | none => false
  | some s => s != ""

/-- The `Headers` object built by `makeRequest` before token injection:
`new Headers({'Content-Type': 'application/json', ...options.headers})`. -/
def mergedHeaders (callerHeaders : List (String × String)) : List (String × String) :=
  headersOfRecord (spreadRecord [("Content-Type", "application/json")] callerHeaders)

/-- Full header construction of `makeRequest(authToken)`:
`if (authToken && !headers.get('Authorization'))
   headers.set('Authorization', 'Bearer ' + authToken)`. -/
def makeRequestHeaders (authToken : String) (callerHeaders : List (String × String)) :
    List (String × String) :=
  let headers := mergedHeaders callerHeaders
  if authToken != "" && !truthyStrOpt (headersGet headers "Authorization") then
    headersSet headers "Authorization" ("Bearer " ++ authToken)
  else headers

/-! ### Verb wrapper body (`post` / `put` / `patch`, lines 192–214)

Each wrapper passes `body: body ? JSON.stringify(body) : undefined`. -/

/-- The `body` field the `post`/`put`/`patch` wrappers place into the request
options: `body ? JSON.stringify(body) : undefined`. -/
def wrapperBody (body : Option Json) : Option String :=
  if truthyOpt body then body.map stringify else none

/-! ### Response classification (`request`, lines 129–163)

A transport response is a status plus a body text.  The behaviour of the
classifier depends only on whether the text is empty, whitespace-only
(`trim()` empty, `JSON.parse` fails), malformed JSON, or well-formed JSON,
so the body text is embedded by that partition. -/

/-- Observable partition of a response body text. -/
inductive BodyText where
  | empty
  | whitespace
  | malformed (msg : String)
  | wellFormed (j : Json)

/-- A transport response: HTTP status plus body text. -/
structure HttpResponse where
  status : Nat
  body : BodyText

/-- `Response.ok`: status in the inclusive range 200–299. -/
def statusOk (s : Nat) : Bool := decide (200 ≤ s ∧ s ≤ 299)

/-- The thrown `ApiError(code, message, status)`.  `code` and `message` are
stored untyped (whatever JavaScript value was passed), as the source never
validates them. -/
structure ApiErr where
  code : Option Json
  message : Option Json
  status : Nat

/-- Successful outcome of `request`: either the literal
`\x7bdata: undefined\x7d` object, or the parsed JSON payload returned as-is. -/
inductive ReqResult where
  | emptyData
  | payload (j : Json)

/-- Fallback error object `\x7bcode: 'UNKNOWN_ERROR', message: 'An error occurred'\x7d`. -/
def unknownErrorObj : Json :=
  .obj [("code", .str "UNKNOWN_ERROR"), ("message", .str "An error occurred")]

/-- Fallback error object `\x7bcode: 'UNAUTHORIZED', message: 'Unauthorized'\x7d`. -/
def unauthorizedObj : Json :=
  .obj [("code", .str "UNAUTHORIZED"), ("message", .str "Unauthorized")]

/-- A thrown JavaScript error: a plain `Error` (including the TypeError
raised by property access on `null`) or an `ApiError`. -/
inductive JsError where
  | plain (msg : String)
  | api (e : ApiErr)

/-- `x || fallback` on an already-accessed (possibly `undefined`) value:
the value when truthy, else the fallback. -/
def orFallback (e? : Option Json) (fallback : Json) : Json :=
  match e? with
  | some e => if truthyJson e then e else fallback
  | none => fallback

/-- Classification of a (possibly retried) response, `request` lines 129–163:
204 short-circuits with no body read; empty/whitespace text yields
`\x7bdata: undefined\x7d` when ok and `EMPTY_RESPONSE` otherwise; malformed text
yields `INVALID_RESPONSE`; parsed text is returned as-is when ok, and
otherwise `data.error` is accessed — throwing a TypeError (a plain error)
when the parsed body is `null`, since that access sits outside the parse
`try`/`catch` — and the truthy `error` field (or the `UNKNOWN_ERROR`
fallback) supplies the `ApiError`. -/
def processResponse (r : HttpResponse) : Except JsError ReqResult :=
  if r.status == 204 then .ok .emptyData
  else match r.body with
    | .empty =>
        if !statusOk r.status then
          .error (.api ⟨some (.str "EMPTY_RESPONSE"),
                        some (.str "Server returned empty response"), r.status⟩)
        else .ok .emptyData
    | .whitespace =>
        if !statusOk r.status then
          .error (.api ⟨some (.str "EMPTY_RESPONSE"),
                        some (.str "Server returned empty response"), r.status⟩)
        else .ok .emptyData
    | .malformed m =>
        .error (.api ⟨some (.str "INVALID_RESPONSE"),
                      some (.str ("Failed to parse server response: " ++ m)), r.status⟩)
    | .wellFormed j =>
        if !statusOk r.status then
          match accessField j "error" with
          | .error msg => .error (.plain msg)
          | .ok e? =>
              let e := orFallback e? unknownErrorObj
              .error (.api ⟨getField e "code", getField e "message", r.status⟩)
        else .ok (.payload j)

/-- The value thrown by the inner `catch` when refresh fails (lines
115–126): the original 401 response's text is read; empty text synthesizes
`\x7berror: \x7bcode: 'UNAUTHORIZED', message: 'Unauthorized'\x7d\x7d` and a parse
failure is caught and synthesizes the same; then `data.error` is accessed
outside that `try`/`catch` — throwing a TypeError (a plain error) when the
body parsed to `null` — and the truthy `error` field (or the same fallback)
supplies the `ApiError` at the original response's status. -/
def build401Error (r : HttpResponse) : JsError :=
  let data : Json := match r.body with
    | .empty => .obj [("error", unauthorizedObj)]
    | .whitespace => .obj [("error", unauthorizedObj)]
    | .malformed _ => .obj [("error", unauthorizedObj)]
    | .wellFormed j => j
  match accessField data "error" with
  | .error msg => .plain msg
  | .ok e? =>
      let apiError := orFallback e? unauthorizedObj
      .api ⟨getField apiError "code", getField apiError "message", r.status⟩

/-- Outcome of `handle401Error()` as seen by `request`: a new token, or a
thrown error.  (The leader path never returns a falsy token: it throws
instead.  The type still allows `hOk ""` so `request`'s own
`if (newToken)` guard is embedded faithfully.) -/
inductive RefreshFlowResult where
  | hOk (tok : String)
  | hErr

/-- The flow inside `request`'s outer `try` (lines 104–163): first response
`r1`; on status 401 call `handle401Error` (counted), on its success retry
once obtaining `r2`, on its failure throw the value built from the original
401 response; finally classify whichever response is current.  Returns the
outcome together with the number of `handle401Error` invocations. -/
def requestFlowInner (r1 r2 : HttpResponse) (h : RefreshFlowResult) :
    Except JsError ReqResult × Nat :=
  if r1.status == 401 then
    match h with
    | .hOk tok =>
        if tok != "" then (processResponse r2, 1) else (processResponse r1, 1)
    | .hErr => (.error (build401Error r1), 1)
  else (processResponse r1, 0)

/-- `request`'s outer `catch` (lines 164–175): an `ApiError` is rethrown
unchanged; any other error is wrapped as `NETWORK_ERROR` with its message at
status 0. -/
def outerCatch : Except JsError ReqResult → Except ApiErr ReqResult
  | .ok v => .ok v
  | .error (.api e) => .error e
  | .error (.plain msg) =>
      .error ⟨some (.str "NETWORK_ERROR"), some (.str msg), 0⟩

/-- One whole `request` call as the caller observes it: the inner flow under
the outer `catch`, still paired with the `handle401Error` invocation
count. -/
def requestFlow (r1 r2 : HttpResponse) (h : RefreshFlowResult) :
    Except ApiErr ReqResult × Nat :=
  let inner := requestFlowInner r1 r2 h
  (outerCatch inner.1, inner.2)

/-! ### Refresh coordinator (module state + `handle401Error`, lines 18–28 and 67–102)

Module state: `isRefreshing` and the `refreshSubscribers` callback list.
Execution is cooperative (single-threaded, interleaving only at `await`
points), so the coordinator is embedded as a deterministic step function
over atomic events:

  * `arrive` — one flow's `handle401Error()` runs its synchronous prefix:
    either it becomes the leader (sets the flag, invokes the provider's
    refresh — counted) or it subscribes a waiter whose promise carries a
    10000 ms `setTimeout` deadline;
  * `settle r` — the leader's awaited refresh settles: on a truthy stored
    token `onRefreshed` resolves every still-pending subscriber in order and
    empties the list; otherwise `clearAuthAndRedirect()` runs; the `finally`
    clears the flag in every case;
  * `tick dt` — the clock advances; every pending waiter whose deadline has
    passed rejects with the timeout error.

A waiter's promise settles at most once (first writer wins): `resolveWaiter`
and `fireTimeout` only act on a pending waiter. -/

/-- Settlement state of one waiter's promise. -/
inductive WStatus where
  | pending
  | resolved (tok : String)
  | rejectedTimeout
deriving DecidableEq

/-- One registered waiter: its `setTimeout` deadline and its promise state. -/
structure Waiter where
  deadline : Nat
  status : WStatus
deriving DecidableEq

/-- How the provider's `refreshAccessToken()` settles, together with the
token readable from the store afterwards (`none` = `null`, and `some ""` is
likewise falsy). -/
inductive ProviderOutcome where
  | threw (msg : String)
  | returned (tokenAfter : Option String)
deriving DecidableEq

/-- Truthiness of `authStore.accessToken` (a `string | null`). -/
def tokenTruthy : Option String → Bool
  | none => false
  | some s => s != ""

/-- Atomic events of the cooperative execution. -/
inductive CoordEvent where
  | arrive
  | settle (r : ProviderOutcome)
  | tick (dt : Nat)
deriving DecidableEq

/-- Coordinator state: the two module variables, the waiter registry (one
entry per subscription, addressed by subscription order), the clock, and
counters for provider-refresh invocations, currently-executing refresh
flows, and `clearAuthAndRedirect` calls. -/
structure CoordState where
  isRefreshing : Bool
  subscribers : List Nat
  waiters : List Waiter
  now : Nat
  refreshCount : Nat
  executing : Nat
  clearAuthCount : Nat
deriving DecidableEq

/-- State at client start-up: flag down, no subscribers, clock at 0. -/
def initState : CoordState :=
  { isRefreshing := false, subscribers := [], waiters := [], now := 0,
    refreshCount := 0, executing := 0, clearAuthCount := 0 }

/-- Replace the element at one index, leaving the list unchanged when the
index is out of range. -/
def modifyAt (f : Waiter → Waiter) : List Waiter → Nat → List Waiter
  | [], _ => []
  | w :: ws, 0 => f w :: ws
  | w :: ws, n + 1 => w :: modifyAt f ws n

/-- A subscriber callback firing with the new token: `clearTimeout` plus
`resolve(token)`, a no-op on an already-settled promise. -/
def resolveWaiter (tok : String) (w : Waiter) : Waiter :=
  if w.status = .pending then { w with status := .resolved tok } else w

/-- A waiter's `setTimeout` firing once the clock passes its deadline:
`reject(new Error('Token refresh timeout'))`, a no-op on an
already-settled promise. -/
def fireTimeout (now : Nat) (w : Waiter) : Waiter :=
  if w.status = .pending ∧ w.deadline ≤ now then { w with status := .rejectedTimeout }
  else w

/-- One atomic event applied to the coordinator state. -/
def step (s : CoordState) : CoordEvent → CoordState
  | .arrive =>
      if s.isRefreshing then
        { s with subscribers := s.subscribers ++ [s.waiters.length],
                 waiters := s.waiters ++ [⟨s.now + 10000, .pending⟩] }
      else
        { s with isRefreshing := true, refreshCount := s.refreshCount + 1,
                 executing := s.executing + 1 }
  | .settle r =>
      if s.isRefreshing then
        match r with
        | .returned t =>
            if tokenTruthy t then
              { s with isRefreshing := false, executing := s.executing - 1,
                       waiters := s.subscribers.foldl
                         (fun ws i => modifyAt (resolveWaiter (t.getD "")) ws i) s.waiters,
                       subscribers := [] }
            else
              { s with isRefreshing := false, executing := s.executing - 1,
                       clearAuthCount := s.clearAuthCount + 1 }
        | .threw _ =>
            { s with isRefreshing := false, executing := s.executing - 1,
                     clearAuthCount := s.clearAuthCount + 1 }
      else s
  | .tick dt =>
      { s with now := s.now + dt,
               waiters := s.waiters.map (fireTimeout (s.now + dt)) }

/-- A run of the coordinator from start-up through a list of events. -/
def run (evs : List CoordEvent) : CoordState := evs.foldl step initState

/-- Whether an event is the in-flight refresh settling successfully (truthy
stored token). -/
def isSuccessSettle : CoordEvent → Bool
  | .settle (.returned t) => tokenTruthy t
  | _ => false

/-- Whether a waiter status is a successful resolution. -/
def isResolvedStatus : WStatus → Bool
  | .resolved _ => true
  | _ => false

/-- A waiter obeys the deadline bound: once its deadline has passed it is
rejected with the timeout error. -/
def boundedWaiter (now : Nat) (w : Waiter) : Bool :=
  if w.deadline ≤ now then decide (w.status = .rejectedTimeout) else true

/-! ### Leader path of `handle401Error` (lines 68–88)

The leader branch as a pure function of how the provider's refresh settles:
its returned or thrown value, whether `clearAuthAndRedirect()` ran, what
`onRefreshed` broadcast (if anything), and the flag after the `finally`. -/

/-- Everything observable about one execution of the leader branch. -/
structure LeaderResult where
  result : Except JsError String
  clearAuthAndRedirect : Bool
  notified : Option String
  isRefreshingAfter : Bool

/-- The leader branch of `handle401Error`: await the provider refresh; on a
truthy stored token broadcast it via `onRefreshed` and return it; on a falsy
token throw `Error('Failed to get new token after refresh')`; the `catch`
runs `clearAuthAndRedirect()` and rethrows; the `finally` clears the flag. -/
def leaderPath : ProviderOutcome → LeaderResult
  | .threw m =>
      { result := .error (.plain m), clearAuthAndRedirect := true,
        notified := none, isRefreshingAfter := false }
  | .returned t =>
      if tokenTruthy t then
        { result := .ok (t.getD ""), clearAuthAndRedirect := false,
          notified := some (t.getD ""), isRefreshingAfter := false }
      else
        { result := .error (.plain "Failed to get new token after refresh"),
          clearAuthAndRedirect := true, notified := none, isRefreshingAfter := false }

/-- Whether a thrown value is an `ApiError` carrying the given string code. -/
def errorHasApiCode (r : Except JsError String) (c : String) : Bool :=
  match r with
  | .error (.api e) =>
      match e.code with
      | some (.str s) => s == c
      | _ => false
  | _ => false

/-- Invariant: the number of flows executing the provider refresh equals one
exactly while the `isRefreshing` flag is up. -/
def ExecInv (s : CoordState) : Prop :=
  s.executing = if s.isRefreshing then 1 else 0

/-- Invariant of runs without a successful settle: no waiter is resolved,
and a pending waiter's deadline is still ahead of the clock. -/
def NoSuccessInv (s : CoordState) : Prop :=
  ∀ w ∈ s.waiters,
    isResolvedStatus w.status = false ∧ (w.status = .pending → s.now < w.deadline)

/-! ### Helper lemmas -/

theorem foldl_preserves {P : CoordState → Prop}
    (hstep : ∀ s e, P s → P (step s e)) :
    ∀ (evs : List CoordEvent) (s : CoordState), P s → P (evs.foldl step s) := by
  intro evs
  induction evs with
  | nil => intro s hs; simpa using hs
  | cons e evs ih => intro s hs; simpa using ih (step s e) (hstep s e hs)

theorem execInv_step (s : CoordState) (e : CoordEvent) (h : ExecInv s) :
    ExecInv (step s e) := by
  unfold ExecInv at h ⊢
  cases e with
  | arrive =>
      cases hr : s.isRefreshing <;> simp [step, hr] at h ⊢ <;> omega
  | settle r =>
      cases hr : s.isRefreshing
      · simp [step, hr] at h ⊢; exact h
      · cases r with
        | returned t =>
            cases ht : tokenTruthy t <;> simp [step, hr, ht] at h ⊢ <;> omega
        | threw m => simp [step, hr] at h ⊢; omega
  | tick dt => simpa [step] using h

theorem execInv_run (evs : List CoordEvent) : ExecInv (run evs) :=
  foldl_preserves execInv_step evs initState (by simp [ExecInv, initState])

theorem replicate_arrive (k : Nat) :
    ∀ (s : CoordState), s.isRefreshing = true →
      ((List.replicate k .arrive).foldl step s).isRefreshing = true ∧
      ((List.replicate k .arrive).foldl step s).refreshCount = s.refreshCount ∧
      ((List.replicate k .arrive).foldl step s).waiters.length = s.waiters.length + k := by
  induction k with
  | zero => intro s hs; simpa using hs
  | succ k ih =>
      intro s hs
      rw [List.replicate_succ]
      simp only [List.foldl_cons]
      have h1 : (step s .arrive).isRefreshing = true := by simp [step, hs]
      obtain ⟨a, b, c⟩ := ih (step s .arrive) h1
      refine ⟨a, ?_, ?_⟩
      · rw [b]; simp [step, hs]
      · rw [c]; simp [step, hs]; omega

theorem getElem?_modifyAt (f : Waiter → Waiter) :
    ∀ (ws : List Waiter) (j i : Nat),
      (modifyAt f ws j)[i]? = if i = j then (ws[i]?).map f else ws[i]? := by
  intro ws
  induction ws with
  | nil => intro j i; simp [modifyAt]
  | cons w ws ih =>
      intro j i
      cases j with
      | zero =>
          cases i with
          | zero => simp [modifyAt]
          | succ i => simp [modifyAt]
      | succ j =>
          cases i with
          | zero => simp [modifyAt]
          | succ i => simpa [modifyAt, Nat.succ_inj] using ih j i

theorem foldl_modifyAt_fixed (g : Waiter → Waiter) (subs : List Nat) :
    ∀ (ws : List Waiter) (i : Nat) (w : Waiter),
      ws[i]? = some w → g w = w →
      (subs.foldl (fun ws j => modifyAt g ws j) ws)[i]? = some w := by
  induction subs with
  | nil => intro ws i w hw _; simpa using hw
  | cons j subs ih =>
      intro ws i w hw hfix
      simp only [List.foldl_cons]
      apply ih _ _ _ _ hfix
      rw [getElem?_modifyAt]
      by_cases hij : i = j
      · subst hij; simp [hw, hfix]
      · simp [hij, hw]

theorem noSuccessInv_step (s : CoordState) (e : CoordEvent)
    (he : isSuccessSettle e = false) (h : NoSuccessInv s) : NoSuccessInv (step s e) := by
  cases e with
  | arrive =>
      by_cases hr : s.isRefreshing
      · intro w hw
        simp only [step, hr, if_true] at hw ⊢
        rcases List.mem_append.mp hw with hmem | hmem
        · exact ⟨(h w hmem).1, fun hp => (h w hmem).2 hp⟩
        · simp only [List.mem_singleton] at hmem
          subst hmem
          exact ⟨rfl, fun _ => show s.now < s.now + 10000 by omega⟩
      · intro w hw
        simp only [step, hr, if_false] at hw ⊢
        exact h w hw
  | settle r =>
      by_cases hr : s.isRefreshing
      · cases r with
        | returned t =>
            by_cases ht : tokenTruthy t
            · simp [isSuccessSettle, ht] at he
            · intro w hw
              simp only [step, hr, ht, if_true, if_false] at hw ⊢
              exact h w hw
        | threw m =>
            intro w hw
            simp only [step, hr, if_true] at hw ⊢
            exact h w hw
      · intro w hw
        simp only [step, hr, if_false] at hw ⊢
        exact h w hw
  | tick dt =>
      intro w hw
      simp only [step] at hw ⊢
      rcases List.mem_map.mp hw with ⟨w0, hw0, rfl⟩
      unfold fireTimeout
      by_cases hc : w0.status = .pending ∧ w0.deadline ≤ s.now + dt
      · rw [if_pos hc]
        exact ⟨rfl, fun hp => by simp at hp⟩
      · rw [if_neg hc]
        refine ⟨(h w0 hw0).1, fun hp => ?_⟩
        have h2 := (h w0 hw0).2 hp
        have h3 : ¬ w0.deadline ≤ s.now + dt := fun hle => hc ⟨hp, hle⟩
        omega

theorem noSuccessInv_foldl :
    ∀ (evs : List CoordEvent) (s : CoordState),
      (∀ e ∈ evs, isSuccessSettle e = false) → NoSuccessInv s →
      NoSuccessInv (evs.foldl step s) := by
  intro evs
  induction evs with
  | nil => intro s _ hs; simpa using hs
  | cons e evs ih =>
      intro s hall hs
      simp only [List.foldl_cons]
      exact ih (step s e)
        (fun e' he' => hall e' (List.mem_cons_of_mem _ he'))
        (noSuccessInv_step s e (hall e (List.mem_cons_self _ _)) hs)

theorem noSuccessInv_run (evs : List CoordEvent)
    (h : ∀ e ∈ evs, isSuccessSettle e = false) : NoSuccessInv (run evs) :=
  noSuccessInv_foldl evs initState h (by intro w hw; simp [initState] at hw)

/-! ### Claim theorems -/

/-- C1: Single-flight refresh.  Along every run at most one flow is executing
the provider refresh at any time, and in the scenario where `n ≥ 1` flows
receive a 401 while no refresh has settled, exactly one provider-refresh
invocation occurs and the other `n - 1` flows register as waiters. -/
theorem single_flight_refresh (evs : List CoordEvent) (n : Nat) (hn : 1 ≤ n) :
    (run evs).executing ≤ 1 ∧
    (run (List.replicate n .arrive)).refreshCount = 1 ∧
    (run (List.replicate n .arrive)).isRefreshing = true ∧
    (run (List.replicate n .arrive)).waiters.length = n - 1 := by
  have hexec : (run evs).executing ≤ 1 := by
    have h := execInv_run evs
    unfold ExecInv at h
    rw [h]; cases (run evs).isRefreshing <;> simp
  obtain ⟨k, rfl⟩ : ∃ k, n = k + 1 := ⟨n - 1, by omega⟩
  have h1 : (step initState .arrive).isRefreshing = true := by simp [step, initState]
  obtain ⟨a, b, c⟩ := replicate_arrive k (step initState .arrive) h1
  have hrc : (step initState .arrive).refreshCount = 1 := by simp [step, initState]
  have hwl : (step initState .arrive).waiters.length = 0 := by simp [step, initState]
  refine ⟨hexec, ?_, ?_, ?_⟩
  · unfold run
    rw [List.replicate_succ, List.foldl_cons, b, hrc]
  · unfold run
    rw [List.replicate_succ, List.foldl_cons]
    exact a
  · unfold run
    rw [List.replicate_succ, List.foldl_cons, c, hwl]
    omega

/-- Witness for C1 at a concrete run and `n = 3`. -/
theorem single_flight_refresh_witness :
    1 ≤ 3 ∧ (run (List.replicate 3 .arrive)).refreshCount = 1 ∧
      (run (List.replicate 3 .arrive)).waiters.length = 3 - 1 :=
  ⟨by decide, (single_flight_refresh [] 3 (by decide)).2.1,
    (single_flight_refresh [] 3 (by decide)).2.2.2⟩

/-- C2 counterexample: after a leader plus one waiter and a failed refresh,
the in-flight flag is down but the subscriber queue is still non-empty —
the failure path never empties it (`onRefreshed` only runs on success). -/
theorem refresh_failure_keeps_waiter_queue :
    (run [.arrive, .arrive, .settle (.threw "boom")]).isRefreshing = false ∧
    (run [.arrive, .arrive, .settle (.threw "boom")]).subscribers ≠ [] := by
  decide

/-- C2 amended: on every settle the `finally` clears the in-flight flag, but
the waiter queue is emptied only on the success path; on either failure path
(provider threw, or success with a falsy stored token) the queue is left
exactly as it was. -/
theorem settle_clears_flag (s : CoordState) (r : ProviderOutcome)
    (h : s.isRefreshing = true) :
    (step s (.settle r)).isRefreshing = false ∧
    (∀ t, r = .returned t → tokenTruthy t = true → (step s (.settle r)).subscribers = []) ∧
    (∀ m, r = .threw m → (step s (.settle r)).subscribers = s.subscribers) ∧
    (∀ t, r = .returned t → tokenTruthy t = false →
      (step s (.settle r)).subscribers = s.subscribers) := by
  refine ⟨?_, ?_, ?_, ?_⟩
  · cases r with
    | returned t => cases ht : tokenTruthy t <;> simp [step, h, ht]
    | threw m => simp [step, h]
  · intro t hrt ht; subst hrt; simp [step, h, ht]
  · intro m hrm; subst hrm; simp [step, h]
  · intro t hrt ht; subst hrt; simp [step, h, ht]

/-- Witness for C2 (amended) at a concrete state with one queued waiter. -/
theorem settle_clears_flag_witness :
    (run [.arrive, .arrive]).isRefreshing = true ∧
    (step (run [.arrive, .arrive]) (.settle (.threw "x"))).isRefreshing = false ∧
    (step (run [.arrive, .arrive]) (.settle (.threw "x"))).subscribers =
      (run [.arrive, .arrive]).subscribers :=
  ⟨by decide, (settle_clears_flag (run [.arrive, .arrive]) (.threw "x") (by decide)).1,
    (settle_clears_flag (run [.arrive, .arrive]) (.threw "x") (by decide)).2.2.1 "x" rfl⟩

/-- C3 counterexample: a waiter queued under a refresh that then fails is
left in the queue, and a later, unrelated successful refresh resolves it
with the new token before its deadline — so after a failed in-flight refresh
a queued waiter can resolve successfully instead of rejecting. -/
theorem stale_waiter_resolved_by_later_refresh :
    (run [.arrive, .arrive, .settle (.threw "boom"), .arrive,
          .settle (.returned (some "tok2"))]).waiters =
      [⟨10000, .resolved "tok2"⟩] ∧
    (run [.arrive, .arrive, .settle (.threw "boom"), .arrive,
          .settle (.returned (some "tok2"))]).now = 0 := by
  decide

/-- C3 amended: in any run containing no successful refresh settle
(persistent refresh failure), no waiter ever resolves, and every waiter
whose 10000 ms deadline has passed has rejected with the timeout error —
so each waiter's wait is bounded by the 10000 ms deadline. -/
theorem persistent_failure_bounds_waiters (evs : List CoordEvent)
    (h : evs.all (fun e => !isSuccessSettle e) = true) :
    ((run evs).waiters.all
      (fun w => !isResolvedStatus w.status && boundedWaiter (run evs).now w)) = true := by
  have h' : ∀ e ∈ evs, isSuccessSettle e = false := by
    intro e he
    have := List.all_eq_true.mp h e he
    simpa using this
  have hinv := noSuccessInv_run evs h'
  rw [List.all_eq_true]
  intro w hw
  obtain ⟨h1, h2⟩ := hinv w hw
  rw [Bool.and_eq_true]
  refine ⟨by simp [h1], ?_⟩
  unfold boundedWaiter
  by_cases hd : w.deadline ≤ (run evs).now
  · rw [if_pos hd]
    cases hs : w.status with
    | pending => exact absurd (h2 hs) (by omega)
    | resolved t => rw [hs] at h1; simp [isResolvedStatus] at h1
    | rejectedTimeout => simp
  · rw [if_neg hd]

/-- Witness for C3 (amended): leader plus one waiter, refresh never
succeeds, clock passes the deadline; the waiter has rejected. -/
theorem persistent_failure_bounds_waiters_witness :
    ([CoordEvent.arrive, .arrive, .tick 10000].all (fun e => !isSuccessSettle e)) = true ∧
    ((run [CoordEvent.arrive, .arrive, .tick 10000]).waiters.all
      (fun w => !isResolvedStatus w.status &&
        boundedWaiter (run [CoordEvent.arrive, .arrive, .tick 10000]).now w)) = true :=
  ⟨by decide, persistent_failure_bounds_waiters [CoordEvent.arrive, .arrive, .tick 10000]
    (by decide)⟩

/-- C4: timeout and success are mutually exclusive per waiter.  A waiter
whose promise has settled (resolved or timeout-rejected) is preserved
unchanged by every subsequent event — in particular a timed-out waiter is
never later resolved by the refresh callback, and a resolved waiter is never
later timeout-rejected; and a still-pending waiter whose deadline passes
during a clock tick rejects with the timeout error. -/
theorem waiter_timeout_success_exclusive (s : CoordState) (ev : CoordEvent)
    (dt i : Nat) (w : Waiter) (hw : s.waiters[i]? = some w) :
    (w.status ≠ .pending → (step s ev).waiters[i]? = some w) ∧
    (w.status = .pending → w.deadline ≤ s.now + dt →
      (step s (.tick dt)).waiters[i]? = some ⟨w.deadline, .rejectedTimeout⟩) := by
  have hi : i < s.waiters.length := by
    rcases List.getElem?_eq_some.mp hw with ⟨h, _⟩; exact h
  constructor
  · intro hnp
    cases ev with
    | arrive =>
        cases hr : s.isRefreshing
        · simp only [step, hr, if_false]
          exact hw
        · simp only [step, hr, if_true]
          rw [List.getElem?_append_left hi]
          exact hw
    | settle r =>
        cases hr : s.isRefreshing
        · simp only [step, hr, if_false]
          exact hw
        · cases r with
          | returned t =>
              cases ht : tokenTruthy t
              · simp only [step, hr, ht, if_true, if_false]
                exact hw
              · simp only [step, hr, ht, if_true]
                exact foldl_modifyAt_fixed _ _ _ _ _ hw
                  (by unfold resolveWaiter; rw [if_neg hnp])
          | threw m =>
              simp only [step, hr, if_true]
              exact hw
    | tick dt' =>
        simp only [step, List.getElem?_map, hw, Option.map_some']
        unfold fireTimeout
        rw [if_neg (fun hc => hnp hc.1)]
  · intro hp hd
    simp only [step, List.getElem?_map, hw, Option.map_some']
    unfold fireTimeout
    rw [if_pos ⟨hp, hd⟩]

/-- Witness for C4: a timed-out waiter is preserved even by a later
successful refresh settle (no late resolution after timeout). -/
theorem waiter_timeout_success_exclusive_witness :
    (run [.arrive, .arrive, .tick 10000]).waiters[0]? =
      some ⟨10000, .rejectedTimeout⟩ ∧
    (step (run [.arrive, .arrive, .tick 10000])
        (.settle (.returned (some "t2")))).waiters[0]? =
      some ⟨10000, .rejectedTimeout⟩ :=
  ⟨by decide,
    (waiter_timeout_success_exclusive (run [.arrive, .arrive, .tick 10000])
      (.settle (.returned (some "t2"))) 0 0 ⟨10000, .rejectedTimeout⟩
      (by decide)).1 (by decide)⟩

/-- C7 counterexample: when the provider refresh succeeds but no token is
stored, the value propagated is the plain `Error('Failed to get new token
after refresh')` — it is not an `ApiError` and carries no `REFRESH_NO_TOKEN`
code, and no waiter is notified. -/
theorem no_refresh_no_token_code :
    (leaderPath (.returned none)).result =
      .error (.plain "Failed to get new token after refresh") ∧
    errorHasApiCode (leaderPath (.returned none)).result "REFRESH_NO_TOKEN" = false ∧
    (leaderPath (.returned none)).notified = none :=
  ⟨rfl, rfl, rfl⟩

/-- C7 amended: a successful provider refresh with an absent (or empty)
stored token is treated as a failure — credentials are cleared and the
redirect signalled, the in-flight flag is cleared, and the plain error
`'Failed to get new token after refresh'` is propagated to the caller;
waiters are not notified.  A truthy stored token is returned and
broadcast. -/
theorem missing_token_treated_as_failure :
    (leaderPath (.returned none)).clearAuthAndRedirect = true ∧
    (leaderPath (.returned none)).isRefreshingAfter = false ∧
    (leaderPath (.returned none)).result =
      .error (.plain "Failed to get new token after refresh") ∧
    (leaderPath (.returned none)).notified = none ∧
    (leaderPath (.returned (some ""))).result =
      .error (.plain "Failed to get new token after refresh") ∧
    (leaderPath (.returned (some "tk"))).result = .ok "tk" ∧
    (leaderPath (.returned (some "tk"))).notified = some "tk" :=
  ⟨rfl, rfl, rfl, rfl, rfl, rfl, rfl⟩

/-- Access through `accessField` agrees with the total `getField` on every
non-`null` value. -/
theorem accessField_ne_null (j : Json) (hj : j ≠ .null) (k : String) :
    accessField j k = .ok (getField j k) := by
  cases j with
  | null => exact absurd rfl hj
  | bool b => rfl
  | num n => rfl
  | str s => rfl
  | arr xs => rfl
  | obj fs => rfl

/-- C5 counterexample: when the retried request returns 401 with a body
parsing to JSON `null`, the `data.error` access throws a TypeError which the
outer `catch` wraps as `NETWORK_ERROR` at status 0 — so the second 401 is
not surfaced as the terminal error. -/
theorem second_401_null_body_escapes_as_network_error :
    (requestFlow ⟨401, .empty⟩ ⟨401, .wellFormed .null⟩ (.hOk "t")).1 =
      .error ⟨some (.str "NETWORK_ERROR"),
              some (.str "Cannot read properties of null (reading 'error')"), 0⟩ ∧
    (requestFlow ⟨401, .empty⟩ ⟨401, .wellFormed .null⟩ (.hOk "t")).2 = 1 :=
  ⟨rfl, rfl⟩

/-- C5 amended: at most one retry per request.  `handle401Error` is invoked
at most once on every flow, and a second 401 after the retry never invokes
the coordinator again; the second 401 is surfaced as the terminal error at
status 401 for every body except one parsing to JSON `null`, where the
`data.error` access throws and `NETWORK_ERROR` at status 0 is surfaced
instead. -/
theorem single_retry (r1 r2 : HttpResponse) (h : RefreshFlowResult) (tok : String) :
    (requestFlow r1 r2 h).2 ≤ 1 ∧
    (r1.status = 401 → r2.status = 401 → tok ≠ "" →
      (requestFlow r1 r2 (.hOk tok)).2 = 1 ∧
      (r2.body ≠ .wellFormed .null →
        ∃ e : ApiErr, (requestFlow r1 r2 (.hOk tok)).1 = .error e ∧ e.status = 401) ∧
      (r2.body = .wellFormed .null →
        (requestFlow r1 r2 (.hOk tok)).1 =
          .error ⟨some (.str "NETWORK_ERROR"),
                  some (.str "Cannot read properties of null (reading 'error')"),
                  0⟩)) := by
  constructor
  · show (requestFlowInner r1 r2 h).2 ≤ 1
    unfold requestFlowInner
    by_cases h1 : (r1.status == 401) = true
    · simp only [h1, if_true]
      cases h with
      | hOk t => by_cases ht : (t != "") = true <;> simp [ht]
      | hErr => simp
    · simp [h1]
  · intro h401 h401' htok
    obtain ⟨st2, b2⟩ := r2
    have hst2 : st2 = 401 := h401'
    subst hst2
    have hb1 : (r1.status == 401) = true := by simp [h401]
    have hbt : (tok != "") = true := by simpa using htok
    have hfst : (requestFlow r1 ⟨401, b2⟩ (.hOk tok)).1 =
        outerCatch (processResponse ⟨401, b2⟩) := by
      simp [requestFlow, requestFlowInner, hb1, hbt]
    have hsnd : (requestFlow r1 ⟨401, b2⟩ (.hOk tok)).2 = 1 := by
      simp [requestFlow, requestFlowInner, hb1, hbt]
    refine ⟨hsnd, ?_, ?_⟩
    · intro hnn
      rw [hfst]
      cases hbody : b2 with
      | empty =>
          exact ⟨⟨some (.str "EMPTY_RESPONSE"),
                  some (.str "Server returned empty response"), 401⟩, rfl, rfl⟩
      | whitespace =>
          exact ⟨⟨some (.str "EMPTY_RESPONSE"),
                  some (.str "Server returned empty response"), 401⟩, rfl, rfl⟩
      | malformed m =>
          exact ⟨⟨some (.str "INVALID_RESPONSE"),
                  some (.str ("Failed to parse server response: " ++ m)), 401⟩, rfl, rfl⟩
      | wellFormed j =>
          have hj : j ≠ .null := fun hjeq => hnn (by rw [hbody, hjeq])
          have hok : statusOk 401 = false := by decide
          refine ⟨⟨getField (orFallback (getField j "error") unknownErrorObj) "code",
                   getField (orFallback (getField j "error") unknownErrorObj) "message",
                   401⟩, ?_, rfl⟩
          simp [processResponse, accessField_ne_null j hj, outerCatch, hok]
    · intro hnull
      have hb : b2 = .wellFormed .null := hnull
      rw [hfst, hb]
      rfl

/-- Witness for C5 (amended): both attempts return 401 with a non-`null`
body; one coordinator invocation, a terminal error at status 401. -/
theorem single_retry_witness :
    (requestFlow ⟨401, .empty⟩ ⟨401, .empty⟩ (.hOk "t")).2 = 1 ∧
    ∃ e : ApiErr, (requestFlow ⟨401, .empty⟩ ⟨401, .empty⟩ (.hOk "t")).1 = .error e ∧
      e.status = 401 :=
  ⟨((single_retry ⟨401, .empty⟩ ⟨401, .empty⟩ (.hOk "t") "t").2 rfl rfl (by decide)).1,
    ((single_retry ⟨401, .empty⟩ ⟨401, .empty⟩ (.hOk "t") "t").2 rfl rfl (by decide)).2.1
      (fun hx => nomatch hx)⟩

/-- C6 counterexample: when refresh fails and the original 401 body parses
to JSON `null`, the `data.error` access (outside the parse `try`/`catch`)
throws a TypeError and the caller receives `NETWORK_ERROR` at status 0 — not
an error at the original 401 status. -/
theorem original_401_null_body_escapes_as_network_error :
    (requestFlow ⟨401, .wellFormed .null⟩ ⟨200, .empty⟩ .hErr).1 =
      .error ⟨some (.str "NETWORK_ERROR"),
              some (.str "Cannot read properties of null (reading 'error')"), 0⟩ ∧
    (requestFlow ⟨401, .wellFormed .null⟩ ⟨200, .empty⟩ .hErr).2 = 1 :=
  ⟨rfl, rfl⟩

/-- C6 amended: when refresh fails after a 401, the request is not retried
(the outcome does not depend on any second response) and the value surfaced
is built from the original 401 response: its parsed `error` field when the
body parses to a non-`null` value with a truthy `error` field, the
synthesized `\x7bcode: 'UNAUTHORIZED', message: 'Unauthorized'\x7d` when the body
is empty or fails to parse; every `ApiError` thrown this way carries the
original response's status — except that a body parsing to JSON `null`
throws at the `data.error` access and surfaces `NETWORK_ERROR` at
status 0. -/
theorem refresh_failure_surfaces_original_401 (r1 r2 r2' : HttpResponse)
    (j e : Json) (m : String) :
    (r1.status = 401 → requestFlow r1 r2 .hErr = requestFlow r1 r2' .hErr) ∧
    (r1.status = 401 →
      (requestFlow r1 r2 .hErr).1 = outerCatch (.error (build401Error r1))) ∧
    ((r1.body = .empty ∨ r1.body = .malformed m) →
      build401Error r1 =
        .api ⟨some (.str "UNAUTHORIZED"), some (.str "Unauthorized"), r1.status⟩) ∧
    (r1.body = .wellFormed j → j ≠ .null →
      getField j "error" = some e → truthyJson e = true →
      build401Error r1 = .api ⟨getField e "code", getField e "message", r1.status⟩) ∧
    (∀ c mm st, build401Error r1 = .api ⟨c, mm, st⟩ → st = r1.status) ∧
    (r1.status = 401 → r1.body = .wellFormed .null →
      (requestFlow r1 r2 .hErr).1 =
        .error ⟨some (.str "NETWORK_ERROR"),
                some (.str "Cannot read properties of null (reading 'error')"),
                0⟩) := by
  obtain ⟨st1, b1⟩ := r1
  refine ⟨?_, ?_, ?_, ?_, ?_, ?_⟩
  · intro h401
    have hst : st1 = 401 := h401
    subst hst
    rfl
  · intro h401
    have hst : st1 = 401 := h401
    subst hst
    rfl
  · intro hb
    rcases hb with hb | hb <;> cases hb <;> rfl
  · intro hbj hjn hge htr
    cases hbj
    simp [build401Error, accessField_ne_null j hjn, hge, orFallback, htr]
  · intro c mm st heq
    show st = st1
    cases b1 with
    | empty => simp [build401Error, accessField] at heq; omega
    | whitespace => simp [build401Error, accessField] at heq; omega
    | malformed m2 => simp [build401Error, accessField] at heq; omega
    | wellFormed jj =>
        cases jj <;> simp [build401Error, accessField] at heq <;> omega
  · intro h401 hbn
    have hst : st1 = 401 := h401
    subst hst
    cases hbn
    rfl

/-- Witness for C6 (amended) at a concrete original 401 with an empty
body. -/
theorem refresh_failure_surfaces_original_401_witness :
    (requestFlow ⟨401, .empty⟩ ⟨200, .empty⟩ .hErr).1 =
      outerCatch (.error (build401Error ⟨401, .empty⟩)) ∧
    build401Error ⟨401, .empty⟩ =
      .api ⟨some (.str "UNAUTHORIZED"), some (.str "Unauthorized"), 401⟩ :=
  ⟨(refresh_failure_surfaces_original_401 ⟨401, .empty⟩ ⟨200, .empty⟩ ⟨200, .empty⟩
      .null .null "").2.1 rfl,
    (refresh_failure_surfaces_original_401 ⟨401, .empty⟩ ⟨200, .empty⟩ ⟨200, .empty⟩
      .null .null "").2.2.1 (Or.inl rfl)⟩

/-- Searching a list whose matching entries were all replaced by `(n, v)`
finds `(n, v)`, provided a matching entry existed. -/
theorem find?_map_replace (n v : String) :
    ∀ (t : List (String × String)),
      (t.find? (fun p => p.1 == n)).isSome = true →
      ((t.map (fun p => if p.1 == n then (n, v) else p)).find?
        (fun p => p.1 == n)) = some (n, v) := by
  intro t
  induction t with
  | nil => intro hf; simp at hf
  | cons p t ih =>
      intro hf
      cases hp : (p.1 == n) with
      | true =>
          simp only [List.map_cons]
          rw [if_pos hp]
          rw [List.find?_cons_of_pos _ (by simp)]
      | false =>
          rw [List.find?_cons_of_neg _ (by simp [hp])] at hf
          simp only [List.map_cons]
          rw [if_neg (by simp [hp])]
          rw [List.find?_cons_of_neg _ (by simp [hp])]
          exact ih hf

/-- Lookup after `Headers.set` with the same name yields the new value. -/
theorem headersGet_headersSet (h : List (String × String)) (k v : String) :
    headersGet (headersSet h k v) k = some v := by
  by_cases hf : (h.find? (fun p => p.1 == lowerName k)).isSome = true
  · have hset : headersSet h k v =
        h.map (fun p => if p.1 == lowerName k then (lowerName k, v) else p) := by
      simp only [headersSet, hf, if_true]
    unfold headersGet
    rw [hset, find?_map_replace _ _ h hf]
    rfl
  · have hset : headersSet h k v = h ++ [(lowerName k, v)] := by
      simp only [headersSet]
      rw [if_neg hf]
    have hnone : h.find? (fun p => p.1 == lowerName k) = none := by
      cases hh : h.find? (fun p => p.1 == lowerName k)
      · rfl
      · rw [hh] at hf; simp at hf
    unfold headersGet
    rw [hset, List.find?_append, hnone]
    simp

/-- C8 counterexample: a caller-supplied `Authorization` header with an
empty value is overwritten by the injected bearer token (the guard is a
truthiness check), and a caller `content-type` spelled in a different case
than the default does not override it — `Headers` combines the two values. -/
theorem header_merge_counterexample :
    headersGet (makeRequestHeaders "tok" [("Authorization", "")]) "Authorization" =
      some "Bearer tok" ∧
    headersGet (makeRequestHeaders "" [("content-type", "text/html")]) "Content-Type" =
      some "application/json, text/html" :=
  ⟨rfl, rfl⟩

/-- C8 amended: a caller `Content-Type` spelled exactly as the default
overrides it; a caller-supplied `Authorization` header with a non-empty
value is never overwritten; the bearer token is injected exactly when the
token is non-empty and the merged caller headers carry no truthy
`Authorization` value. -/
theorem header_merge_amended (tok v a : String) (caller : List (String × String)) :
    (headersGet (makeRequestHeaders tok [("Content-Type", v)]) "Content-Type" = some v) ∧
    (headersGet (mergedHeaders caller) "Authorization" = some a → a ≠ "" →
      headersGet (makeRequestHeaders tok caller) "Authorization" = some a) ∧
    (tok ≠ "" → truthyStrOpt (headersGet (mergedHeaders caller) "Authorization") = false →
      headersGet (makeRequestHeaders tok caller) "Authorization" =
        some ("Bearer " ++ tok)) ∧
    (makeRequestHeaders "" caller = mergedHeaders caller) := by
  refine ⟨?_, ?_, ?_, ?_⟩
  · by_cases ht : tok = ""
    · subst ht; rfl
    · have h1 : (tok != "") = true := by simpa using ht
      have h2 : truthyStrOpt
          (headersGet (mergedHeaders [("Content-Type", v)]) "Authorization") = false := rfl
      simp [makeRequestHeaders, h1, h2]
      try rfl
  · intro ha hne
    have h3 : truthyStrOpt (some a) = true := by simpa [truthyStrOpt] using hne
    simp [makeRequestHeaders, ha, h3]
  · intro ht hf
    have h1 : (tok != "") = true := by simpa using ht
    simp [makeRequestHeaders, h1, hf, headersGet_headersSet]
  · simp [makeRequestHeaders]

/-- Witness for C8 (amended): a caller `Basic` credential survives token
injection; with no caller headers the bearer token is injected. -/
theorem header_merge_amended_witness :
    headersGet (mergedHeaders [("Authorization", "Basic x")]) "Authorization" =
      some "Basic x" ∧
    headersGet (makeRequestHeaders "tok" [("Authorization", "Basic x")]) "Authorization" =
      some "Basic x" ∧
    headersGet (makeRequestHeaders "tok" []) "Authorization" =
      some ("Bearer " ++ "tok") :=
  ⟨rfl,
    (header_merge_amended "tok" "v" "Basic x" [("Authorization", "Basic x")]).2.1
      rfl (by decide),
    (header_merge_amended "tok" "v" "" []).2.2.1 (by decide) rfl⟩

/-- C9: response-body classification.  A 204 yields `\x7bdata: undefined\x7d` for
every body (no body inspected); an empty body yields `\x7bdata: undefined\x7d` at
any 2xx status and an `EMPTY_RESPONSE` error at the response's own status
otherwise; a well-formed JSON body at a non-204 2xx status is returned as
the parsed payload unchanged. -/
theorem response_classification (s : Nat) (b : BodyText) (j : Json) :
    (processResponse ⟨204, b⟩ = .ok .emptyData) ∧
    (statusOk s = true → processResponse ⟨s, .empty⟩ = .ok .emptyData) ∧
    (statusOk s = false →
      processResponse ⟨s, .empty⟩ =
        .error (.api ⟨some (.str "EMPTY_RESPONSE"),
                      some (.str "Server returned empty response"), s⟩)) ∧
    (statusOk s = true → s ≠ 204 →
      processResponse ⟨s, .wellFormed j⟩ = .ok (.payload j)) := by
  refine ⟨rfl, ?_, ?_, ?_⟩
  · intro hok
    by_cases h204 : s = 204
    · subst h204; rfl
    · have hb : (s == 204) = false := by simpa using h204
      simp [processResponse, hb, hok]
  · intro hnot
    have h204 : s ≠ 204 := by
      intro he; subst he; exact absurd hnot (by decide)
    have hb : (s == 204) = false := by simpa using h204
    simp [processResponse, hb, hnot]
  · intro hok h204
    have hb : (s == 204) = false := by simpa using h204
    simp [processResponse, hb, hok]

/-- Witness for C9 at statuses 200 and 500. -/
theorem response_classification_witness :
    statusOk 200 = true ∧ processResponse ⟨200, .empty⟩ = .ok .emptyData ∧
    statusOk 500 = false ∧
    processResponse ⟨500, .empty⟩ =
      .error (.api ⟨some (.str "EMPTY_RESPONSE"),
                    some (.str "Server returned empty response"), 500⟩) ∧
    processResponse ⟨200, .wellFormed (.obj [("data", .obj [("id", .num 1)])])⟩ =
      .ok (.payload (.obj [("data", .obj [("id", .num 1)])])) :=
  ⟨by decide, (response_classification 200 .empty .null).2.1 (by decide),
    by decide, (response_classification 500 .empty .null).2.2.1 (by decide),
    (response_classification 200 .empty
      (.obj [("data", .obj [("id", .num 1)])])).2.2.2 (by decide) (by decide)⟩

/-- C10: the `post`/`put`/`patch` wrappers send no body for every falsy
`body` argument (`undefined`, `null`, `""`, `0`, `false`) and send the
JSON-stringified value for every truthy one — so the JSON values `0`,
`false` and `""` cannot be sent as a request body through them. -/
theorem wrapper_body_truthiness (b : Option Json) (j : Json) :
    (truthyOpt b = false → wrapperBody b = none) ∧
    (truthyJson j = true → wrapperBody (some j) = some (stringify j)) ∧
    wrapperBody none = none ∧
    wrapperBody (some .null) = none ∧
    wrapperBody (some (.str "")) = none ∧
    wrapperBody (some (.num 0)) = none ∧
    wrapperBody (some (.bool false)) = none := by
  refine ⟨?_, ?_, rfl, rfl, rfl, rfl, rfl⟩
  · intro h; simp [wrapperBody, h]
  · intro h; simp [wrapperBody, truthyOpt, h]

/-- Witness for C10 at a falsy and a truthy body. -/
theorem wrapper_body_truthiness_witness :
    truthyOpt (some (.bool false)) = false ∧
    wrapperBody (some (.bool false)) = none ∧
    truthyJson (.str "a") = true ∧
    wrapperBody (some (.str "a")) = some (stringify (.str "a")) :=
  ⟨rfl, (wrapper_body_truthiness (some (.bool false)) (.str "a")).1 rfl,
    rfl, (wrapper_body_truthiness (some (.bool false)) (.str "a")).2.1 rfl⟩

end ApiClient
